import Mathlib

/-!
Verification of the settlement/commission calculation engine of the VJACKDB
back-office application, embedded shallowly in Lean.

Money values are modelled as rationals (the source uses JavaScript numbers);
optional / possibly-missing numeric fields are `Option ℚ`, and the JavaScript
idiom `x || 0` is `qOrZero`.  JavaScript truthiness tests such as
`account.referralPercentage ? e : 0` are modelled exactly: `none` and `some 0`
are falsy, every other number (negative included) is truthy.
-/

namespace VJackDB

/-- The idiom `x || 0` on a possibly-missing numeric field. -/
def qOrZero (x : Option ℚ) : ℚ := x.getD 0

/-- Broker commission type (`'percentage' | 'flat' | 'both'`). -/
inductive CommissionType
  | percentage
  | flat
  | both
deriving DecidableEq, Repr

/-- Broker commission configuration (the fields of the `Broker` record read by
`calculateAmounts`). -/
structure Broker where
  commissionType : CommissionType
  commissionPercentage : Option ℚ
  flatCommission : Option ℚ
deriving DecidableEq, Repr

/-- Agent (account-holder) commission configuration (the fields of
`agent.data()` read by `calculateAmounts`); the whole record may be absent. -/
structure AgentData where
  commissionPercentage : Option ℚ
  flatCommission : Option ℚ
deriving DecidableEq, Repr

/-- The raw per-entry balance inputs of a daily entry form. -/
structure EntryInput where
  startingBalance : Option ℚ
  endingBalance : Option ℚ
  refillAmount : Option ℚ
  withdrawal : Option ℚ
deriving DecidableEq, Repr

/-- The configuration surrounding one settlement computation: the account promo
amount, the player (clicker) percentage, the agent record, the broker record
(present only when the broker was fetched and the account has a `brokerId`),
the process-wide tax rate, and the account referral percentage. -/
structure CalcContext where
  accountPromoAmount : Option ℚ
  playerPercentage : Option ℚ
  agentData : Option AgentData
  broker : Option Broker
  taxRate : ℚ
  referralPercentage : Option ℚ
deriving DecidableEq, Repr

/-- The computed outputs written back to the entry. -/
structure CalcResult where
  profitLoss : ℚ
  clickerAmount : ℚ
  accHolderAmount : ℚ
  brokerAmount : ℚ
  taxableAmount : ℚ
  referralAmount : ℚ
  companyAmount : ℚ
deriving DecidableEq, Repr

/-- Source: `effectiveStarting = (startingBalance || 0) + (account?.promoAmount || 0)`. -/
def effectiveStarting (e : EntryInput) (ctx : CalcContext) : ℚ :=
  qOrZero e.startingBalance + qOrZero ctx.accountPromoAmount

/-- Source: `profitLoss = (endingBalance || 0) - effectiveStarting + (withdrawal || 0)
- (refillAmount || 0)`. -/
def profitLossCalc (e : EntryInput) (ctx : CalcContext) : ℚ :=
  qOrZero e.endingBalance - effectiveStarting e ctx +
    qOrZero e.withdrawal - qOrZero e.refillAmount

/-- Source: `clickerAmount = (profitLoss * (userData.percentage || 0)) / 100`. -/
def clickerCalc (pl : ℚ) (playerPercentage : Option ℚ) : ℚ :=
  pl * qOrZero playerPercentage / 100

/-- Source: `accHolderAmount = agentData ? profitLoss * (commissionPercentage || 0) /
100 + (flatCommission || 0) : 0`. -/
def accHolderCalc (pl : ℚ) (agentData : Option AgentData) : ℚ :=
  match agentData with
  | some a => pl * qOrZero a.commissionPercentage / 100 + qOrZero a.flatCommission
  | none => 0

/-- The broker amount: `0` without a broker, otherwise the `commissionType`
switch of the source. -/
def brokerCalc (pl : ℚ) (broker : Option Broker) : ℚ :=
  match broker with
  | none => 0
  | some b =>
    match b.commissionType with
    | .percentage => pl * qOrZero b.commissionPercentage / 100
    | .flat => qOrZero b.flatCommission
    | .both => pl * qOrZero b.commissionPercentage / 100 + qOrZero b.flatCommission

/-- Source: `taxAmount = (profitLoss * taxRate) / 100`. -/
def taxCalc (pl taxRate : ℚ) : ℚ := pl * taxRate / 100

/-- Source: `referralAmount = account.referralPercentage ? (profitLoss *
account.referralPercentage) / 100 : 0` — a JavaScript truthiness test, so
`none` and `some 0` give `0` and every other value (negative included) takes
the percentage branch. -/
def referralCalc (pl : ℚ) (referralPercentage : Option ℚ) : ℚ :=
  match referralPercentage with
  | none => 0
  | some r => if r = 0 then 0 else pl * r / 100

/-- The settlement computation of the broker-aware `AccountEntry` component
(`calculateAmounts`): profit/loss from the effective starting balance, the five
beneficiary amounts, and the company residual. -/
def calculateAmounts (e : EntryInput) (ctx : CalcContext) : CalcResult :=
  let pl := profitLossCalc e ctx
  let clicker := clickerCalc pl ctx.playerPercentage
  let accHolder := accHolderCalc pl ctx.agentData
  let broker := brokerCalc pl ctx.broker
  let tax := taxCalc pl ctx.taxRate
  let referral := referralCalc pl ctx.referralPercentage
  { profitLoss := pl
    clickerAmount := clicker
    accHolderAmount := accHolder
    brokerAmount := broker
    taxableAmount := tax
    referralAmount := referral
    companyAmount := pl - clicker - accHolder - broker - tax - referral }

/-- The profit/loss computation of the legacy `AccountEntry.tsx` component,
which has no account promo amount:
`(endingBalance || 0) - (startingBalance || 0) + (withdrawal || 0) -
(refillAmount || 0)`. -/
def profitLossLegacy (e : EntryInput) : ℚ :=
  qOrZero e.endingBalance - qOrZero e.startingBalance +
    qOrZero e.withdrawal - qOrZero e.refillAmount

end VJackDB

namespace VJackDB

open CommissionType

/-- C1: for every entry computation, profitLoss equals endingBalance minus
effectiveStarting plus withdrawal minus refillAmount, where effectiveStarting
is startingBalance plus the account promo amount (0 when absent); the legacy
component computes the same value with the promo amount absent. -/
theorem profitLoss_eq_spec (e : EntryInput) (ctx : CalcContext) :
    (calculateAmounts e ctx).profitLoss =
      qOrZero e.endingBalance - effectiveStarting e ctx +
        qOrZero e.withdrawal - qOrZero e.refillAmount
    ∧ effectiveStarting e ctx =
        qOrZero e.startingBalance + qOrZero ctx.accountPromoAmount
    ∧ profitLossLegacy e =
        (calculateAmounts e { ctx with accountPromoAmount := none }).profitLoss := by
  refine ⟨rfl, rfl, ?_⟩
  simp [calculateAmounts, profitLossCalc, profitLossLegacy, effectiveStarting, qOrZero]

/-- C2: the six split amounts always sum back to profitLoss exactly, because
companyAmount is the residual, with no clamping. -/
theorem residual_conservation (e : EntryInput) (ctx : CalcContext) :
    (calculateAmounts e ctx).clickerAmount + (calculateAmounts e ctx).accHolderAmount +
      (calculateAmounts e ctx).brokerAmount + (calculateAmounts e ctx).taxableAmount +
      (calculateAmounts e ctx).referralAmount + (calculateAmounts e ctx).companyAmount =
      (calculateAmounts e ctx).profitLoss := by
  simp only [calculateAmounts]
  ring

/-- C3: the broker commission switch: 0 without a broker, percentage / flat /
both as specified, and the `both` amount is the sum of the `percentage` and
`flat` amounts for the same profitLoss and config values. -/
theorem broker_switch (e : EntryInput) (ctx : CalcContext) (cp fc : Option ℚ) :
    (calculateAmounts e { ctx with broker := none }).brokerAmount = 0
    ∧ (calculateAmounts e { ctx with broker := some ⟨percentage, cp, fc⟩ }).brokerAmount =
        (calculateAmounts e ctx).profitLoss * qOrZero cp / 100
    ∧ (calculateAmounts e { ctx with broker := some ⟨flat, cp, fc⟩ }).brokerAmount =
        qOrZero fc
    ∧ (calculateAmounts e { ctx with broker := some ⟨both, cp, fc⟩ }).brokerAmount =
        (calculateAmounts e ctx).profitLoss * qOrZero cp / 100 + qOrZero fc
    ∧ (calculateAmounts e { ctx with broker := some ⟨both, cp, fc⟩ }).brokerAmount =
        (calculateAmounts e { ctx with broker := some ⟨percentage, cp, fc⟩ }).brokerAmount +
          (calculateAmounts e { ctx with broker := some ⟨flat, cp, fc⟩ }).brokerAmount := by
  refine ⟨rfl, ?_, rfl, ?_, rfl⟩ <;>
    simp [calculateAmounts, brokerCalc, profitLossCalc, effectiveStarting]

/-- C5 counterexample: the claim says referralAmount is 0 whenever
referralPercent is not positive, but a negative referral percentage is truthy
in JavaScript: with referralPercentage = -5 and profitLoss = 100 the code
computes referralAmount = -5, not 0. -/
theorem referral_negative_counterexample :
    ¬ ((-5 : ℚ) > 0)
    ∧ (calculateAmounts
        ⟨some 0, some 100, some 0, some 0⟩
        ⟨some 0, some 0, none, none, 10, some (-5)⟩).referralAmount = -5
    ∧ (calculateAmounts
        ⟨some 0, some 100, some 0, some 0⟩
        ⟨some 0, some 0, none, none, 10, some (-5)⟩).referralAmount ≠ 0 := by
  refine ⟨by norm_num, ?_, ?_⟩ <;>
    simp [calculateAmounts, referralCalc, profitLossCalc, effectiveStarting, qOrZero] <;>
    norm_num

/-- C5 amended: referralAmount equals profitLoss * referralPercent / 100
whenever referralPercent is present and nonzero (negative values included),
and is 0 when referralPercent is absent or zero. -/
theorem referral_truthiness (e : EntryInput) (ctx : CalcContext) (rp : ℚ)
    (hrp : rp ≠ 0) :
    (calculateAmounts e { ctx with referralPercentage := some rp }).referralAmount =
      (calculateAmounts e ctx).profitLoss * rp / 100
    ∧ (calculateAmounts e { ctx with referralPercentage := none }).referralAmount = 0
    ∧ (calculateAmounts e { ctx with referralPercentage := some 0 }).referralAmount = 0 := by
  refine ⟨?_, rfl, ?_⟩ <;>
    simp [calculateAmounts, referralCalc, profitLossCalc, effectiveStarting, hrp]

/-- C5 amended, witness at referralPercent = -5. -/
theorem referral_truthiness_witness :
    (calculateAmounts ⟨some 0, some 100, some 0, some 0⟩
        ⟨some 0, some 0, none, none, 10, some (-5)⟩).referralAmount =
      (calculateAmounts ⟨some 0, some 100, some 0, some 0⟩
        ⟨some 0, some 0, none, none, 10, none⟩).profitLoss * (-5) / 100
    ∧ (calculateAmounts ⟨some 0, some 100, some 0, some 0⟩
        ⟨some 0, some 0, none, none, 10, none⟩).referralAmount = 0
    ∧ (calculateAmounts ⟨some 0, some 100, some 0, some 0⟩
        ⟨some 0, some 0, none, none, 10, some 0⟩).referralAmount = 0 := by
  have h := referral_truthiness ⟨some 0, some 100, some 0, some 0⟩
    ⟨some 0, some 0, none, none, 10, none⟩ (-5) (by norm_num)
  exact h

/-- The flat component of a broker configuration: what remains of the broker
commission when the percentage contribution vanishes. -/
def flatComponent (b : Broker) : ℚ :=
  match b.commissionType with
  | .percentage => 0
  | .flat => qOrZero b.flatCommission
  | .both => qOrZero b.flatCommission

/-- C6: zero-input identity: equal starting and ending balances with zero
refill, withdrawal and promo give profitLoss = 0, and with zero commission
percentages every derived amount is 0 except the flat commissions: the agent
flat commission still reaches accHolderAmount, the broker flat component still
reaches brokerAmount, and companyAmount is their negated sum (the residual). -/
theorem zero_input_identity (e : EntryInput) (ctx : CalcContext)
    (a : AgentData) (b : Broker)
    (hse : qOrZero e.startingBalance = qOrZero e.endingBalance)
    (hrf : qOrZero e.refillAmount = 0)
    (hwd : qOrZero e.withdrawal = 0)
    (hpromo : qOrZero ctx.accountPromoAmount = 0)
    (hplayer : qOrZero ctx.playerPercentage = 0)
    (hagent : ctx.agentData = some a)
    (hacp : qOrZero a.commissionPercentage = 0)
    (hbroker : ctx.broker = some b)
    (hbcp : qOrZero b.commissionPercentage = 0) :
    (calculateAmounts e ctx).profitLoss = 0
    ∧ (calculateAmounts e ctx).clickerAmount = 0
    ∧ (calculateAmounts e ctx).taxableAmount = 0
    ∧ (calculateAmounts e ctx).referralAmount = 0
    ∧ (calculateAmounts e ctx).accHolderAmount = qOrZero a.flatCommission
    ∧ (calculateAmounts e ctx).brokerAmount = flatComponent b
    ∧ (calculateAmounts e ctx).companyAmount =
        -(qOrZero a.flatCommission + flatComponent b) := by
  have hpl : profitLossCalc e ctx = 0 := by
    simp [profitLossCalc, effectiveStarting, hse, hrf, hwd, hpromo]
  have hclick : clickerCalc 0 ctx.playerPercentage = 0 := by
    simp [clickerCalc]
  have htax : taxCalc 0 ctx.taxRate = 0 := by
    simp [taxCalc]
  have href : referralCalc 0 ctx.referralPercentage = 0 := by
    cases hr : ctx.referralPercentage with
    | none => simp [referralCalc]
    | some r =>
      by_cases h : r = 0 <;> simp [referralCalc, h]
  have hacc : accHolderCalc 0 ctx.agentData = qOrZero a.flatCommission := by
    simp [accHolderCalc, hagent, hacp]
  have hbr : brokerCalc 0 ctx.broker = flatComponent b := by
    simp only [brokerCalc, hbroker, flatComponent]
    cases b.commissionType <;> simp [hbcp]
  refine ⟨hpl, ?_, ?_, ?_, ?_, ?_, ?_⟩ <;>
    simp only [calculateAmounts, hpl, hclick, htax, href, hacc, hbr] <;>
    ring

/-- C6 witness: a concrete zero-input scenario with flat commissions 7 (agent)
and 3 (broker `both`). -/
theorem zero_input_identity_witness :
    (calculateAmounts ⟨some 5, some 5, some 0, some 0⟩
        ⟨some 0, some 0, some ⟨some 0, some 7⟩, some ⟨both, some 0, some 3⟩,
          10, none⟩).profitLoss = 0
    ∧ (calculateAmounts ⟨some 5, some 5, some 0, some 0⟩
        ⟨some 0, some 0, some ⟨some 0, some 7⟩, some ⟨both, some 0, some 3⟩,
          10, none⟩).clickerAmount = 0
    ∧ (calculateAmounts ⟨some 5, some 5, some 0, some 0⟩
        ⟨some 0, some 0, some ⟨some 0, some 7⟩, some ⟨both, some 0, some 3⟩,
          10, none⟩).taxableAmount = 0
    ∧ (calculateAmounts ⟨some 5, some 5, some 0, some 0⟩
        ⟨some 0, some 0, some ⟨some 0, some 7⟩, some ⟨both, some 0, some 3⟩,
          10, none⟩).referralAmount = 0
    ∧ (calculateAmounts ⟨some 5, some 5, some 0, some 0⟩
        ⟨some 0, some 0, some ⟨some 0, some 7⟩, some ⟨both, some 0, some 3⟩,
          10, none⟩).accHolderAmount = qOrZero (some 7)
    ∧ (calculateAmounts ⟨some 5, some 5, some 0, some 0⟩
        ⟨some 0, some 0, some ⟨some 0, some 7⟩, some ⟨both, some 0, some 3⟩,
          10, none⟩).brokerAmount = flatComponent ⟨both, some 0, some 3⟩
    ∧ (calculateAmounts ⟨some 5, some 5, some 0, some 0⟩
        ⟨some 0, some 0, some ⟨some 0, some 7⟩, some ⟨both, some 0, some 3⟩,
          10, none⟩).companyAmount =
        -(qOrZero (some 7) + flatComponent ⟨both, some 0, some 3⟩) := by
  exact zero_input_identity ⟨some 5, some 5, some 0, some 0⟩
    ⟨some 0, some 0, some ⟨some 0, some 7⟩, some ⟨both, some 0, some 3⟩, 10, none⟩
    ⟨some 0, some 7⟩ ⟨both, some 0, some 3⟩
    rfl rfl rfl rfl rfl rfl rfl rfl rfl

/-- The first (fetched-tax-rate) editing computation of the legacy
`AccountEntry` component: no promo, no broker, tax from the fetched `taxRate`
state. -/
def calculateEditingAmountsV1 (e : EntryInput) (ctx : CalcContext) : CalcResult :=
  let pl := profitLossLegacy e
  let clicker := clickerCalc pl ctx.playerPercentage
  let accHolder := accHolderCalc pl ctx.agentData
  let tax := taxCalc pl ctx.taxRate
  let referral := referralCalc pl ctx.referralPercentage
  { profitLoss := pl
    clickerAmount := clicker
    accHolderAmount := accHolder
    brokerAmount := 0
    taxableAmount := tax
    referralAmount := referral
    companyAmount := pl - clicker - accHolder - tax - referral }

/-- The duplicated second editing computation of the legacy `AccountEntry`
component, which hardcodes `taxPercentage = 10` instead of the fetched
process-wide tax rate.  Both editing effects fire on the same balance-field
dependencies; this one is registered later, so its state update overwrites the
first one's, and the entry keeps the 10 percent tax amount. -/
def calculateEditingAmountsV1Dup (e : EntryInput) (ctx : CalcContext) : CalcResult :=
  let pl := profitLossLegacy e
  let clicker := clickerCalc pl ctx.playerPercentage
  let accHolder := accHolderCalc pl ctx.agentData
  let tax := taxCalc pl 10
  let referral := referralCalc pl ctx.referralPercentage
  { profitLoss := pl
    clickerAmount := clicker
    accHolderAmount := accHolder
    brokerAmount := 0
    taxableAmount := tax
    referralAmount := referral
    companyAmount := pl - clicker - accHolder - tax - referral }

/-- C4: the code at the failing input.  Entry creation and the broker-aware
component use the fetched tax rate (`taxableAmount = profitLoss * taxRate /
100`), but the legacy component's duplicated editing effect — the one whose
update lands last — hardcodes 10 percent: with the process-wide rate set to 20
and profitLoss = 100, it stores taxableAmount = 10 where the claim requires
20. -/
theorem tax_edit_hardcoded_bug :
    (calculateAmounts ⟨some 0, some 100, some 0, some 0⟩
        ⟨some 0, some 0, none, none, 20, none⟩).taxableAmount = 20
    ∧ (calculateEditingAmountsV1 ⟨some 0, some 100, some 0, some 0⟩
        ⟨some 0, some 0, none, none, 20, none⟩).taxableAmount = 20
    ∧ (calculateEditingAmountsV1Dup ⟨some 0, some 100, some 0, some 0⟩
        ⟨some 0, some 0, none, none, 20, none⟩).taxableAmount = 10
    ∧ (calculateEditingAmountsV1Dup ⟨some 0, some 100, some 0, some 0⟩
        ⟨some 0, some 0, none, none, 20, none⟩).profitLoss *
        (20 : ℚ) / 100 = 20
    ∧ (10 : ℚ) ≠ 20 := by
  refine ⟨?_, ?_, ?_, ?_, by norm_num⟩ <;>
    simp [calculateAmounts, calculateEditingAmountsV1, calculateEditingAmountsV1Dup,
      taxCalc, profitLossCalc, profitLossLegacy, effectiveStarting, qOrZero]

end VJackDB

namespace VJackDB

/-- Account status values (`'active' | 'inactive' | 'unused'`). -/
inductive AccountStatus
  | active
  | inactive
  | unused
deriving DecidableEq, Repr

/-- The status derivation of `fetchAccountData`:
`status = accountData.status || 'unused'`, then `'active'` when the account
has entries, else `'unused'` unless the stored status is the manual
`'inactive'` flag. -/
def deriveStatus (stored : Option AccountStatus) (entryCount : ℕ) : AccountStatus :=
  let s := stored.getD .unused
  if entryCount > 0 then .active
  else if s ≠ .inactive then .unused
  else s

/-- The status written by `handleDeleteEntry` after a deletion: when no entry
remains and the account is not manually `'inactive'`, the status reverts to
`'unused'`; otherwise it is left as it was. -/
def statusAfterDelete (current : AccountStatus) (remaining : ℕ) : AccountStatus :=
  if remaining = 0 then
    if current ≠ .inactive then .unused else current
  else current

/-- C7: for an account not manually flagged inactive, the derived status is
`unused` with zero entries and `active` with at least one; deleting the last
remaining entry reverts the status to `unused` unless the account was manually
forced `inactive`, which is kept. -/
theorem status_derivation (stored : Option AccountStatus) (n : ℕ)
    (cur : AccountStatus) (hstored : stored ≠ some .inactive)
    (hcur : cur ≠ .inactive) :
    (n = 0 → deriveStatus stored n = .unused)
    ∧ (0 < n → deriveStatus stored n = .active)
    ∧ statusAfterDelete cur 0 = .unused
    ∧ statusAfterDelete .inactive 0 = .inactive := by
  refine ⟨?_, ?_, ?_, rfl⟩
  · rintro rfl
    cases stored with
    | none => rfl
    | some s => cases s <;> simp_all [deriveStatus]
  · intro hn
    simp [deriveStatus, hn]
  · simp [statusAfterDelete, hcur]

/-- C7 witness: a stored `active` status with 0 entries derives `unused`, with
one entry derives `active`, and deletion of the last entry reverts an `active`
account to `unused` while an `inactive` account stays `inactive`. -/
theorem status_derivation_witness :
    (deriveStatus (some .active) 0 = .unused)
    ∧ (deriveStatus (some .active) 1 = .active)
    ∧ statusAfterDelete .active 0 = .unused
    ∧ statusAfterDelete .inactive 0 = .inactive := by
  have h := status_derivation (some .active) 1 .active
    (by simp) (by simp)
  exact ⟨status_derivation (some .active) 0 .active (by simp) (by simp)
    |>.1 rfl, h.2.1 (by norm_num), h.2.2.1, h.2.2.2⟩

/-- Replacing every absent balance field by an explicit 0. -/
def entryDefaults (e : EntryInput) : EntryInput :=
  { startingBalance := some (qOrZero e.startingBalance)
    endingBalance := some (qOrZero e.endingBalance)
    refillAmount := some (qOrZero e.refillAmount)
    withdrawal := some (qOrZero e.withdrawal) }

/-- Replacing every absent numeric configuration field by an explicit 0. -/
def ctxDefaults (ctx : CalcContext) : CalcContext :=
  { ctx with
    accountPromoAmount := some (qOrZero ctx.accountPromoAmount)
    playerPercentage := some (qOrZero ctx.playerPercentage)
    referralPercentage := some (qOrZero ctx.referralPercentage) }

/-- C8: the computation is total: absent numeric inputs behave exactly as
explicit zeros, profitLoss flows through to the result unchanged, and a
negative profitLoss with positive rates yields negative tax and clicker
amounts. -/
theorem calc_total (e : EntryInput) (ctx : CalcContext)
    (hpl : profitLossCalc e ctx < 0) (ht : 0 < ctx.taxRate)
    (hp : 0 < qOrZero ctx.playerPercentage) :
    calculateAmounts (entryDefaults e) (ctxDefaults ctx) = calculateAmounts e ctx
    ∧ (calculateAmounts e ctx).profitLoss = profitLossCalc e ctx
    ∧ (calculateAmounts e ctx).taxableAmount < 0
    ∧ (calculateAmounts e ctx).clickerAmount < 0 := by
  have hdef : calculateAmounts (entryDefaults e) (ctxDefaults ctx) =
      calculateAmounts e ctx := by
    cases hr : ctx.referralPercentage with
    | none =>
      simp [calculateAmounts, profitLossCalc, effectiveStarting, clickerCalc,
        accHolderCalc, brokerCalc, taxCalc, referralCalc, entryDefaults,
        ctxDefaults, qOrZero, hr]
    | some r =>
      by_cases h : r = 0 <;>
        simp [calculateAmounts, profitLossCalc, effectiveStarting, clickerCalc,
          accHolderCalc, brokerCalc, taxCalc, referralCalc, entryDefaults,
          ctxDefaults, qOrZero, hr, h]
  refine ⟨hdef, rfl, ?_, ?_⟩
  · show taxCalc (profitLossCalc e ctx) ctx.taxRate < 0
    have : profitLossCalc e ctx * ctx.taxRate < 0 := mul_neg_of_neg_of_pos hpl ht
    exact div_neg_of_neg_of_pos this (by norm_num)
  · show clickerCalc (profitLossCalc e ctx) ctx.playerPercentage < 0
    have : profitLossCalc e ctx * qOrZero ctx.playerPercentage < 0 :=
      mul_neg_of_neg_of_pos hpl hp
    exact div_neg_of_neg_of_pos this (by norm_num)

/-- C8 witness: a loss of 200 at tax rate 10 and player percentage 50. -/
theorem calc_total_witness :
    calculateAmounts (entryDefaults ⟨some 0, some (-200), none, none⟩)
        (ctxDefaults ⟨none, some 50, none, none, 10, none⟩) =
      calculateAmounts ⟨some 0, some (-200), none, none⟩
        ⟨none, some 50, none, none, 10, none⟩
    ∧ (calculateAmounts ⟨some 0, some (-200), none, none⟩
        ⟨none, some 50, none, none, 10, none⟩).profitLoss =
      profitLossCalc ⟨some 0, some (-200), none, none⟩
        ⟨none, some 50, none, none, 10, none⟩
    ∧ (calculateAmounts ⟨some 0, some (-200), none, none⟩
        ⟨none, some 50, none, none, 10, none⟩).taxableAmount < 0
    ∧ (calculateAmounts ⟨some 0, some (-200), none, none⟩
        ⟨none, some 50, none, none, 10, none⟩).clickerAmount < 0 := by
  refine calc_total _ _ ?_ ?_ ?_
  · show ((-200 : ℚ) - (0 + 0) + 0 - 0 : ℚ) < 0
    norm_num
  · show (0 : ℚ) < 10
    norm_num
  · show (0 : ℚ) < 50
    norm_num

/-- Account type (`'pph' | 'legal'`). -/
inductive AccountType
  | pph
  | legal
deriving DecidableEq, Repr

/-- A previously saved entry as read when prefilling the entry form: its date
(dates are compared as totally ordered values; the `yyyy-MM-dd` strings of the
source compare lexicographically, i.e. chronologically) and its ending
balance. -/
structure PrevEntry where
  date : ℕ
  endingBalance : Option ℚ
deriving DecidableEq, Repr

/-- Insert into a list kept in descending date order (the comparator
`(a, b) => (b.date > a.date ? 1 : -1)` of the source sorts descending). -/
def insertByDateDesc (e : PrevEntry) : List PrevEntry → List PrevEntry
  | [] => [e]
  | x :: xs => if e.date ≤ x.date then x :: insertByDateDesc e xs else e :: x :: xs

/-- Sort the saved entries by date, newest first. -/
def sortByDateDesc (l : List PrevEntry) : List PrevEntry :=
  l.foldr insertByDateDesc []

/-- The `startingBalance` prefill of `fetchAccountData` when no entry exists
for today: a `legal` account starts from `depositAmount || 0`; a `pph` account
starts from the newest previous entry's ending balance, or 0 when there is
none. -/
def defaultStartingBalance (t : AccountType) (depositAmount : Option ℚ)
    (entries : List PrevEntry) : ℚ :=
  let prefillStarting : ℚ :=
    match t, sortByDateDesc entries with
    | .pph, x :: _ => qOrZero x.endingBalance
    | _, _ => 0
  match t with
  | .legal => qOrZero depositAmount
  | .pph => prefillStarting

/-- C9: when no entry exists yet, the entry form's starting balance is
initialized to the deposit amount for a legal account (0 when the deposit
amount is absent) and to 0 for a pph account. -/
theorem default_starting_balance (d : Option ℚ) (entries : List PrevEntry)
    (hnone : entries = []) :
    defaultStartingBalance .legal d entries = qOrZero d
    ∧ defaultStartingBalance .pph d entries = 0 := by
  subst hnone
  exact ⟨rfl, rfl⟩

/-- C9 witness: a legal account with deposit 1000 and no entries starts at
1000; a pph account with no entries starts at 0. -/
theorem default_starting_balance_witness :
    defaultStartingBalance .legal (some 1000) [] = qOrZero (some 1000)
    ∧ defaultStartingBalance .pph (some 1000) [] = 0 := by
  exact default_starting_balance (some 1000) [] rfl

/-- In `fetchTaxRate` the tax-rate state is initialized to 10 and overwritten
only when the settings document exists and is read without error, so an
absent or unreadable setting leaves the rate at 10. -/
def resolveTaxRate (setting : Option ℚ) : ℚ := setting.getD 10

/-- C10: with the tax-rate setting absent or unreadable, the computation
proceeds with the default rate 10 — not 0 — and taxableAmount is 10 percent of
profitLoss; a stored setting is used as-is. -/
theorem default_tax_rate (e : EntryInput) (ctx : CalcContext) (v : ℚ) :
    resolveTaxRate none = 10
    ∧ resolveTaxRate none ≠ 0
    ∧ (calculateAmounts e { ctx with taxRate := resolveTaxRate none }).taxableAmount =
        (calculateAmounts e ctx).profitLoss * 10 / 100
    ∧ resolveTaxRate (some v) = v := by
  exact ⟨rfl, by norm_num [resolveTaxRate], rfl, rfl⟩

end VJackDB
